import Mathlib

/-!
Shallow embedding of `Source/Core/DolphinQt/Debugger/WatchWidget.cpp` (Dolphin's
debugger Watch panel) and proofs about its rendering, edit dispatch and
persistence logic.

The widget is UI glue over external collaborators:
* the Watch Store (`PowerPC::debug_interface`) owning the ordered watch list;
* the Memory Accessor (`Core::IsRunning`, `PowerPC::HostIsRAMAddress`,
  `PowerPC::HostRead_U32`, `PowerPC::HostGetString`, `PowerPC::HostWrite_U32`);
* `IniFile` persistence.

The widget functions `Update`, `OnItemChanged`, `OnLoad`, `OnSave`,
`DeleteWatch`, `AddWatch` are embedded from the source. The collaborators are
not in the reviewed sources, so their operations are modelled from the spec
(each such definition says so in its doc comment). Machine integers are `Nat`;
the 32-bit bound enters only where the code enforces it (numeric parsing).
Side effects on the outside world (memory writes, the error dialog, calls to
`Update`) are recorded as an explicit `Effects` value.
-/

namespace WatchWidget

/-- A watch entry as held by the Watch Store: a name and a 32-bit address. -/
structure Watch where
  name : String
  address : Nat
  deriving Repr, DecidableEq

/-- Snapshot of the external target consumed during a render: whether the core
is running (`Core::IsRunning`), which addresses are valid RAM
(`PowerPC::HostIsRAMAddress`), the 32-bit reads (`PowerPC::HostRead_U32`) and
the bounded string reads (`PowerPC::HostGetString`, arguments address and
maximum length). -/
structure Target where
  running : Bool
  isRAM : Nat → Bool
  readU32 : Nat → Nat
  readString : Nat → Nat → String

/-- Embeds the Qt format call `QStringLiteral("%1").arg(n, 8, 16, QLatin1Char('0'))`:
the base-16 digits of `n` (lowercase), left-padded with `'0'` to at least 8
characters. -/
def hexPad8 (n : Nat) : String :=
  let ds := Nat.toDigits 16 n
  String.mk (List.replicate (8 - ds.length) '0' ++ ds)

/-- One rendered table cell: its text, whether its foreground was set to the
red "invalid" brush, and whether it is user-editable (`setFlags` without
`Qt::ItemIsEditable` makes a cell read-only). -/
structure Cell where
  text : String
  red : Bool
  editable : Bool
  deriving Repr, DecidableEq

/-- One rendered table row: the five columns Label, Address, Hexadecimal,
Decimal, String. -/
structure Row where
  label : Cell
  address : Cell
  hex : Cell
  decimal : Cell
  str : Cell
  deriving Repr, DecidableEq

/-- Embeds the per-entry body of the loop in `WatchWidget::Update` (source
lines 135-179): the name, the address zero-padded to 8 hex digits, and the
hex/decimal/string cells populated only when the core is running and the
address is valid RAM; the address cell gets the red brush whenever the core is
not running or the address is not RAM. The String cell is read-only. -/
def renderRow (t : Target) (w : Watch) : Row :=
  let live := t.running && t.isRAM w.address
  { label := { text := w.name, red := false, editable := true }
    address := { text := hexPad8 w.address
                 red := !t.running || !t.isRAM w.address
                 editable := true }
    hex := { text := if live then hexPad8 (t.readU32 w.address) else ""
             red := false, editable := true }
    decimal := { text := if live then toString (t.readU32 w.address) else ""
                 red := false, editable := true }
    str := { text := if live then t.readString w.address 32 else ""
             red := false, editable := false } }

/-- Embeds the trailing "add new watch" row appended by `WatchWidget::Update`
(source lines 181-191): an empty editable label cell and four read-only empty
cells. -/
def sentinelRow : Row :=
  { label := { text := "", red := false, editable := true }
    address := { text := "", red := false, editable := false }
    hex := { text := "", red := false, editable := false }
    decimal := { text := "", red := false, editable := false }
    str := { text := "", red := false, editable := false } }

/-- The full table built by `WatchWidget::Update`: one row per watch entry, in
order, followed by the sentinel row. -/
def renderTable (t : Target) (ws : List Watch) : List Row :=
  ws.map (renderRow t) ++ [sentinelRow]

/-- The widget state the embedded operations touch: the Watch Store's list
(held externally, but threaded here), the target snapshot, the displayed
table, and the `m_updating` re-entrancy guard. -/
structure PanelState where
  watches : List Watch
  target : Target
  table : List Row
  updating : Bool

/-- Embeds `WatchWidget::Update` (source lines 118-194): sets `m_updating`,
clears and rebuilds the whole table from the current watch list and target
state, then clears `m_updating`. -/
def Update (s : PanelState) : PanelState :=
  { s with table := renderTable s.target s.watches, updating := false }

/-- Modelled from the spec: `PowerPC::debug_interface.GetWatch(i)` (Watch Store
API, enumerate entry-by-index); its implementation is outside the reviewed
sources. Out-of-range access is undefined in the source; here it yields a
default entry. -/
def getWatch (ws : List Watch) (i : Nat) : Watch :=
  (ws.get? i).getD { name := "", address := 0 }

/-- Modelled from the spec: `PowerPC::debug_interface.RemoveWatch(i)` (Watch
Store API, remove(index)); removes the entry at the given index, shifting
later entries down. -/
def removeWatch (ws : List Watch) (i : Nat) : List Watch :=
  ws.eraseIdx i

/-- Modelled from the spec: `PowerPC::debug_interface.UpdateWatchName(i, name)`
(Watch Store API, rename(index, name)); replaces the name of the entry at the
given index and nothing else. -/
def updateWatchName (ws : List Watch) (i : Nat) (n : String) : List Watch :=
  match ws.get? i with
  | some w => ws.set i { w with name := n }
  | none => ws

/-- Modelled from the spec: `PowerPC::debug_interface.UpdateWatchAddress(i, a)`
(Watch Store API, re-address(index, address)); replaces the address of the
entry at the given index and nothing else. -/
def updateWatchAddress (ws : List Watch) (i : Nat) (a : Nat) : List Watch :=
  match ws.get? i with
  | some w => ws.set i { w with address := a }
  | none => ws

/-- Modelled from the spec: `PowerPC::debug_interface.SetWatch(addr, name)`
(Watch Store API, add(name, address)); appends a new entry with the given name
and address. -/
def setWatch (ws : List Watch) (addr : Nat) (n : String) : List Watch :=
  ws ++ [{ name := n, address := addr }]

/-- Modelled from the spec: `PowerPC::debug_interface.ClearWatches()` (Watch
Store API, clear-all). -/
def clearWatches (_ws : List Watch) : List Watch :=
  []

/-- Modelled from the spec: `PowerPC::debug_interface.LoadWatchesFromStrings`
(Watch Store API, bulk-deserialize-from-strings). The spec leaves the line
format to the Watch Store, so the per-line deserialization is a parameter;
each line that deserializes to an entry is appended in order. -/
def loadWatchesFromStrings (line : String → Option Watch) (ws : List Watch)
    (lines : List String) : List Watch :=
  ws ++ lines.filterMap line

/-- Value of one character as a digit of the given base, or `none`. Models the
digit handling of `QString::toUInt` for bases 10 and 16 (0-9, a-f, A-F). -/
def digitVal (base : Nat) (c : Char) : Option Nat :=
  let n := c.toNat
  if 48 ≤ n ∧ n ≤ 57 then
    if n - 48 < base then some (n - 48) else none
  else if 97 ≤ n ∧ n ≤ 102 then
    if n - 87 < base then some (n - 87) else none
  else if 65 ≤ n ∧ n ≤ 70 then
    if n - 55 < base then some (n - 55) else none
  else none

/-- Accumulates a digit string left to right; fails at the first non-digit. -/
def parseDigits (base : Nat) : List Char → Nat → Option Nat
  | [], acc => some acc
  | c :: cs, acc =>
    match digitVal base c with
    | some d => parseDigits base cs (acc * base + d)
    | none => none

/-- Embeds `QString::toUInt(&good, base)` as used by `OnItemChanged` (Qt
library code, outside the reviewed sources): the text must be a nonempty run
of digits of the base whose value fits in 32 bits, otherwise the conversion
fails (`good == false`). -/
def toUIntQt (s : String) (base : Nat) : Option Nat :=
  if s.isEmpty then none
  else
    match parseDigits base s.data 0 with
    | some v => if v < 2 ^ 32 then some v else none
    | none => none

/-- The data `OnItemChanged` reads off the changed `QTableWidgetItem`: whether
`item->data(Qt::UserRole)` is null (true for the header items `Update` never
tags), the row index stored at `Qt::UserRole` (`-1` marks the sentinel row),
the column index stored at `Qt::UserRole + 1`, and the cell text. -/
structure EditEvent where
  dataNull : Bool
  row : Int
  column : Nat
  text : String
  deriving Repr, DecidableEq

/-- The externally visible side effects of one `OnItemChanged` call: the
`PowerPC::HostWrite_U32(value, address)` calls issued (in order, as
value-address pairs), whether the `QMessageBox::critical` "Invalid input
provided" dialog was shown, and how many times `Update()` ran. -/
structure Effects where
  memWrites : List (Nat × Nat)
  errorShown : Bool
  refreshCount : Nat
  deriving Repr, DecidableEq

/-- No side effects at all. -/
def noEffects : Effects :=
  { memWrites := [], errorShown := false, refreshCount := 0 }

/-- Embeds `WatchWidget::OnItemChanged` (source lines 261-317) together with
the helpers it calls, `WatchWidget::DeleteWatch` (lines 319-323, RemoveWatch
then `Update`) and `WatchWidget::AddWatch` (lines 330-333, SetWatch). Returns
the new state and the recorded side effects.

Dispatch mirrors the source: events are dropped while `m_updating` is set or
the item carries no row data; row `-1` is the sentinel row, where non-empty
text adds a watch named by the text at address 0 and refreshes, and empty text
does nothing; on an existing row, column 0 deletes on empty text and renames
otherwise, column 1 parses hex and re-addresses the entry, columns 2 and 3
parse hex resp. decimal and write the value to memory at the entry's current
address, and a failed parse shows the error dialog; every existing-row edit
falls through to the trailing `Update()` call at line 315. -/
def onItemChanged (s : PanelState) (e : EditEvent) : PanelState × Effects :=
  if s.updating || e.dataNull then (s, noEffects)
  else if e.row == -1 then
    if !e.text.isEmpty then
      (Update { s with watches := setWatch s.watches 0 e.text },
       { noEffects with refreshCount := 1 })
    else (s, noEffects)
  else
    let row := e.row.toNat
    match e.column with
    | 0 =>
      if e.text.isEmpty then
        (Update (Update { s with watches := removeWatch s.watches row }),
         { noEffects with refreshCount := 2 })
      else
        (Update { s with watches := updateWatchName s.watches row e.text },
         { noEffects with refreshCount := 1 })
    | 1 =>
      match toUIntQt e.text 16 with
      | some v =>
        (Update { s with watches := updateWatchAddress s.watches row v },
         { noEffects with refreshCount := 1 })
      | none =>
        (Update s, { noEffects with errorShown := true, refreshCount := 1 })
    | 2 =>
      match toUIntQt e.text 16 with
      | some v =>
        (Update s, { memWrites := [(v, (getWatch s.watches row).address)]
                     errorShown := false, refreshCount := 1 })
      | none =>
        (Update s, { noEffects with errorShown := true, refreshCount := 1 })
    | 3 =>
      match toUIntQt e.text 10 with
      | some v =>
        (Update s, { memWrites := [(v, (getWatch s.watches row).address)]
                     errorShown := false, refreshCount := 1 })
      | none =>
        (Update s, { noEffects with errorShown := true, refreshCount := 1 })
    | _ => (Update s, { noEffects with refreshCount := 1 })

/-- Embeds `WatchWidget::OnLoad` (source lines 201-220). The `IniFile` calls
are outside the reviewed sources, so following the spec their outcomes are
inputs: `fileLoaded` is the result of `ini.Load` on the per-game file, and
`watchesSection` holds the lines when `ini.GetLines("Watches", ...)` succeeds.
If the file fails to load the handler returns at once; if the section is
present the watch list is cleared and reloaded from the lines; either way once
the file loaded, the table is refreshed. -/
def onLoad (fileLoaded : Bool) (watchesSection : Option (List String))
    (line : String → Option Watch) (s : PanelState) : PanelState :=
  if !fileLoaded then s
  else
    match watchesSection with
    | some lines =>
      Update { s with
               watches := loadWatchesFromStrings line (clearWatches s.watches) lines }
    | none => Update s

/-- Modelled from the spec: `IniFile::SetLines(section, lines)` (outside the
reviewed sources), over a file represented as an ordered list of sections
(name paired with lines): writes/overwrites the named section, creating it at
the end if absent. -/
def setLines (file : List (String × List String)) (sec : String)
    (lines : List String) : List (String × List String) :=
  if file.any (fun p => p.1 == sec) then
    file.map (fun p => if p.1 == sec then (p.1, lines) else p)
  else
    file ++ [(sec, lines)]

/-- Embeds `WatchWidget::OnSave` (source lines 222-229): load the existing
per-game file, replace its "Watches" section with the serialized watch list
(`SaveWatchesToStrings` is outside the reviewed sources, so its result is the
`serialized` parameter), and save. The result is the saved file contents. -/
def onSave (file : List (String × List String)) (serialized : List String) :
    List (String × List String) :=
  setLines file "Watches" serialized

/-- A concrete target used by the evaluation witnesses: running, with RAM
below address 100. -/
def sampleTarget : Target :=
  { running := true
    isRAM := fun a => a < 100
    readU32 := fun a => a + 5
    readString := fun _ _ => "abc" }

/-- A concrete panel state used by the evaluation witnesses: one watch, not
updating. -/
def sampleState : PanelState :=
  { watches := [{ name := "w0", address := 16 }]
    target := sampleTarget
    table := []
    updating := false }

/-! ## Helper lemmas -/

/-- A nonnegative row index is never the sentinel marker `-1`. -/
theorem ofNat_beq_neg_one (r : Nat) : (Int.ofNat r == -1) = false := by
  rw [beq_eq_false_iff_ne]
  intro h
  simp [Int.ofNat_eq_coe] at h

/-- For an in-range index, `getWatch` is plain list indexing. -/
theorem getWatch_lt (ws : List Watch) (r : Nat) (h : r < ws.length) :
    getWatch ws r = ws.get ⟨r, h⟩ := by
  simp [getWatch, List.getElem?_eq_getElem h]

/-- Overwriting the lines of one section leaves, after filtering that section
away, the same list of sections. -/
theorem filter_map_overwrite (sec : String) (lines : List String)
    (l : List (String × List String)) :
    (l.map fun p => if p.1 == sec then (p.1, lines) else p).filter
        (fun p => p.1 != sec) =
      l.filter fun p => p.1 != sec := by
  induction l with
  | nil => rfl
  | cons p t ih =>
    by_cases h : p.1 = sec
    · simpa [List.filter_cons, h] using ih
    · simpa [List.filter_cons, h] using ih

/-- A string differing from `""` has `isEmpty = false`. -/
theorem isEmpty_false_of_ne (s : String) (h : s ≠ "") : s.isEmpty = false := by
  rw [Bool.eq_false_iff]
  intro he
  exact h ((String.isEmpty_iff s).mp he)

/-- The empty string has `isEmpty = true`. -/
theorem isEmpty_true_of_eq (s : String) (h : s = "") : s.isEmpty = true := by
  subst h
  rfl

/-! ## Claim theorems -/

/-- C8: Refresh is idempotent: with no intervening change to the watch list,
the target state or memory, running `Update` twice produces exactly the state
one `Update` produces — same table (row count, cell texts, styling) and same
guard flag. -/
theorem update_idempotent (s : PanelState) : Update (Update s) = Update s :=
  rfl

/-- C9: while the `m_updating` guard flag is set, every cell-edit event is
ignored: the handler leaves the state unchanged, writes no memory, shows no
error and triggers no refresh. -/
theorem updating_guard_ignores_edits (s : PanelState) (e : EditEvent)
    (h : s.updating = true) : onItemChanged s e = (s, noEffects) := by
  simp [onItemChanged, h]

/-- Witness for C9: a concrete address edit arriving during a rebuild has no
effect at all. -/
theorem updating_guard_ignores_edits_witness :
    onItemChanged { sampleState with updating := true }
        { dataNull := false, row := 0, column := 1, text := "1000" } =
      ({ sampleState with updating := true }, noEffects) :=
  updating_guard_ignores_edits { sampleState with updating := true }
    { dataNull := false, row := 0, column := 1, text := "1000" } rfl

/-- C10: `OnSave` preserves every section of the per-game file other than
"Watches": filtering the "Watches" section out of the saved file gives back
exactly the other sections of the original file, lines untouched. -/
theorem onsave_preserves_other_sections (file : List (String × List String))
    (serialized : List String) :
    (onSave file serialized).filter (fun p => p.1 != "Watches") =
      file.filter fun p => p.1 != "Watches" := by
  unfold onSave setLines
  split
  · exact filter_map_overwrite "Watches" serialized file
  · simp [List.filter_append]

/-- C2: `OnLoad` leaves the watch list untouched when the per-game file fails
to load (the handler returns at once) or when the "Watches" section is absent;
when the section is present, the watch list is replaced wholesale by the
entries deserialized from the section's lines (the old list cleared first) and
the table is rebuilt from the new list. -/
theorem onload_contract (fl : Bool) (sec : Option (List String))
    (line : String → Option Watch) (s : PanelState) :
    (fl = false → onLoad fl sec line s = s) ∧
    (sec = none → (onLoad fl sec line s).watches = s.watches) ∧
    (∀ lines, sec = some lines →
      (onLoad true sec line s).watches = lines.filterMap line ∧
      (onLoad true sec line s).table =
        renderTable s.target (lines.filterMap line)) := by
  refine ⟨fun hf => by simp [onLoad, hf], fun hs => ?_, fun lines hs => ?_⟩
  · cases fl <;> simp [onLoad, hs, Update]
  · subst hs
    simp [onLoad, loadWatchesFromStrings, clearWatches, Update]

/-- Witness for C2: a failed file load is a strict no-op, and a present
section replaces the watch list with the deserialized lines. -/
theorem onload_contract_witness :
    onLoad false none (fun _ => none) sampleState = sampleState ∧
    (onLoad true (some ["x"]) (fun t => some { name := t, address := 1 })
        sampleState).watches =
      ["x"].filterMap fun t => some { name := t, address := 1 } :=
  ⟨(onload_contract false none (fun _ => none) sampleState).1 rfl,
   ((onload_contract true (some ["x"]) (fun t => some { name := t, address := 1 })
       sampleState).2.2 ["x"] rfl).1⟩

/-- C1: every watch entry rendered by `Update` shows its name and its address
as zero-padded 8-digit hex; the hex/decimal/string cells hold the live 32-bit
read (hex zero-padded, decimal form, 32-byte-bounded string) exactly when the
target is running and the address is valid RAM, and are blank with the address
cell in the red "invalid" style otherwise. -/
theorem update_renders_entry (t : Target) (ws : List Watch) (i : Nat)
    (h : i < ws.length) :
    (renderTable t ws)[i]? = some (renderRow t ws[i]) ∧
    (renderRow t ws[i]).label.text = ws[i].name ∧
    (renderRow t ws[i]).address.text = hexPad8 ws[i].address ∧
    (t.running = true ∧ t.isRAM ws[i].address = true →
      (renderRow t ws[i]).hex.text = hexPad8 (t.readU32 ws[i].address) ∧
      (renderRow t ws[i]).decimal.text = toString (t.readU32 ws[i].address) ∧
      (renderRow t ws[i]).str.text = t.readString ws[i].address 32 ∧
      (renderRow t ws[i]).address.red = false) ∧
    (¬(t.running = true ∧ t.isRAM ws[i].address = true) →
      (renderRow t ws[i]).hex.text = "" ∧
      (renderRow t ws[i]).decimal.text = "" ∧
      (renderRow t ws[i]).str.text = "" ∧
      (renderRow t ws[i]).address.red = true) := by
  refine ⟨?_, rfl, rfl, ?_, ?_⟩
  · rw [renderTable, List.getElem?_append_left (by simpa using h),
      List.getElem?_map]
    simp [h]
  · rintro ⟨hr, hm⟩
    simp [renderRow, hr, hm]
  · intro hn
    rcases Bool.eq_false_or_eq_true t.running with hr | hr
    · rcases Bool.eq_false_or_eq_true (t.isRAM ws[i].address) with hm | hm
      · exact absurd ⟨hr, hm⟩ hn
      · simp [renderRow, hr, hm]
    · simp [renderRow, hr]

/-- Witness for C1: on a concrete running target with one watch at a RAM
address, row 0 is the rendered entry and its hex cell holds the read value. -/
theorem update_renders_entry_witness :
    (renderTable sampleTarget sampleState.watches)[0]? =
      some (renderRow sampleTarget { name := "w0", address := 16 }) ∧
    (renderRow sampleTarget { name := "w0", address := 16 }).hex.text =
      hexPad8 21 :=
  ⟨(update_renders_entry sampleTarget sampleState.watches 0 (by decide)).1,
   ((update_renders_entry sampleTarget sampleState.watches 0
       (by decide)).2.2.2.1 (by decide)).1⟩

/-- C3: an edit of an existing row's Hexadecimal or Decimal cell whose text
parses (base 16 resp. base 10) writes exactly the parsed 32-bit value to
target memory at the entry's current address, shows no error, and leaves the
watch list (names and addresses) unchanged. -/
theorem value_edit_writes_memory (s : PanelState) (e : EditEvent) (r v : Nat)
    (h0 : s.updating = false) (h1 : e.dataNull = false)
    (h2 : e.row = Int.ofNat r) (h3 : r < s.watches.length)
    (hc : e.column = 2 ∨ e.column = 3)
    (hp : toUIntQt e.text (if e.column < 3 then 16 else 10) = some v) :
    (onItemChanged s e).2.memWrites = [(v, (s.watches.get ⟨r, h3⟩).address)] ∧
    (onItemChanged s e).1.watches = s.watches ∧
    (onItemChanged s e).2.errorShown = false := by
  have hrow : (e.row == -1) = false := by
    rw [h2]; exact ofNat_beq_neg_one r
  rcases hc with hc | hc
  · have hp16 : toUIntQt e.text 16 = some v := by
      rw [hc] at hp; simpa using hp
    simp [onItemChanged, h0, h1, hrow, hc, h2, hp16,
      getWatch_lt s.watches r h3, Update, noEffects]
  · have hp10 : toUIntQt e.text 10 = some v := by
      rw [hc] at hp; simpa using hp
    simp [onItemChanged, h0, h1, hrow, hc, h2, hp10,
      getWatch_lt s.watches r h3, Update, noEffects]

/-- Witness for C3: writing hex "ff" into the Hexadecimal cell of the sample
entry at address 16 emits the memory write (255, 16) and leaves the list
alone. -/
theorem value_edit_writes_memory_witness :
    (onItemChanged sampleState
        { dataNull := false, row := 0, column := 2, text := "ff" }).2.memWrites =
      [(255, 16)] ∧
    (onItemChanged sampleState
        { dataNull := false, row := 0, column := 2, text := "ff" }).1.watches =
      sampleState.watches :=
  ⟨(value_edit_writes_memory sampleState
      { dataNull := false, row := 0, column := 2, text := "ff" } 0 255 rfl rfl rfl
      (by decide) (Or.inl rfl) (by decide)).1,
   (value_edit_writes_memory sampleState
      { dataNull := false, row := 0, column := 2, text := "ff" } 0 255 rfl rfl rfl
      (by decide) (Or.inl rfl) (by decide)).2.1⟩

/-- C4: an edit of an existing row's Address, Hexadecimal or Decimal cell
whose text fails to parse in the respective base raises the blocking
"Invalid input provided" dialog and mutates nothing: the watch list is
unchanged and no memory write is issued. -/
theorem invalid_edit_no_mutation (s : PanelState) (e : EditEvent) (r : Nat)
    (h0 : s.updating = false) (h1 : e.dataNull = false)
    (h2 : e.row = Int.ofNat r)
    (hc : e.column = 1 ∨ e.column = 2 ∨ e.column = 3)
    (hp : toUIntQt e.text (if e.column < 3 then 16 else 10) = none) :
    (onItemChanged s e).1.watches = s.watches ∧
    (onItemChanged s e).2.memWrites = [] ∧
    (onItemChanged s e).2.errorShown = true := by
  have hrow : (e.row == -1) = false := by
    rw [h2]; exact ofNat_beq_neg_one r
  rcases hc with hc | hc | hc
  · have hp16 : toUIntQt e.text 16 = none := by
      rw [hc] at hp; simpa using hp
    simp [onItemChanged, h0, h1, hrow, hc, hp16, Update, noEffects]
  · have hp16 : toUIntQt e.text 16 = none := by
      rw [hc] at hp; simpa using hp
    simp [onItemChanged, h0, h1, hrow, hc, hp16, Update, noEffects]
  · have hp10 : toUIntQt e.text 10 = none := by
      rw [hc] at hp; simpa using hp
    simp [onItemChanged, h0, h1, hrow, hc, hp10, Update, noEffects]

/-- Witness for C4: the non-numeric text "zzzz" in the Address cell leaves the
watch list intact, writes nothing, and shows the error dialog. -/
theorem invalid_edit_no_mutation_witness :
    (onItemChanged sampleState
        { dataNull := false, row := 0, column := 1, text := "zzzz" }).1.watches =
      sampleState.watches ∧
    (onItemChanged sampleState
        { dataNull := false, row := 0, column := 1, text := "zzzz" }).2.errorShown =
      true :=
  ⟨(invalid_edit_no_mutation sampleState
      { dataNull := false, row := 0, column := 1, text := "zzzz" } 0 rfl rfl rfl
      (Or.inl rfl) (by decide)).1,
   (invalid_edit_no_mutation sampleState
      { dataNull := false, row := 0, column := 1, text := "zzzz" } 0 rfl rfl rfl
      (Or.inl rfl) (by decide)).2.2⟩

/-- C5 counterexample: an invalid hex edit of an existing row ("zzzz" in the
Address column) shows the error dialog and nevertheless triggers a refresh —
the trailing `Update()` call at source line 315 runs on the error path too, so
the claim that a parse failure does not trigger `Refresh()` is false here. -/
theorem invalid_edit_still_refreshes_cex :
    (onItemChanged sampleState
        { dataNull := false, row := 0, column := 1, text := "zzzz" }).2.errorShown =
      true ∧
    (onItemChanged sampleState
        { dataNull := false, row := 0, column := 1, text := "zzzz" }).2.refreshCount ≠
      0 := by
  decide

/-- C5 (amended): every edit of an existing row triggers a full refresh —
successful or not, the invalid-input case included; on the sentinel row a
non-empty edit triggers exactly one refresh and an empty edit triggers none. -/
theorem edit_refresh_policy (s : PanelState) (e : EditEvent)
    (h0 : s.updating = false) (h1 : e.dataNull = false) :
    ((∃ r : Nat, e.row = Int.ofNat r) →
      0 < (onItemChanged s e).2.refreshCount) ∧
    (e.row = -1 → e.text ≠ "" → (onItemChanged s e).2.refreshCount = 1) ∧
    (e.row = -1 → e.text = "" → (onItemChanged s e).2.refreshCount = 0) := by
  refine ⟨?_, ?_, ?_⟩
  · rintro ⟨r, hr⟩
    have hrow : (e.row == -1) = false := by
      rw [hr]; exact ofNat_beq_neg_one r
    unfold onItemChanged
    simp only [h0, h1, hrow, Bool.or_self, Bool.false_or, if_false,
      Bool.false_eq_true, if_neg]
    split <;> (try split) <;> simp [noEffects]
  · intro hr ht
    have hemp : e.text.isEmpty = false := isEmpty_false_of_ne e.text ht
    simp [onItemChanged, h0, h1, hr, hemp, noEffects]
  · intro hr ht
    have hemp : e.text.isEmpty = true := isEmpty_true_of_eq e.text ht
    simp [onItemChanged, h0, h1, hr, hemp, noEffects]

/-- Witness for the amended C5: a successful rename of row 0 refreshes, and a
non-empty sentinel edit refreshes exactly once. -/
theorem edit_refresh_policy_witness :
    0 < (onItemChanged sampleState
        { dataNull := false, row := 0, column := 0, text := "renamed" }).2.refreshCount ∧
    (onItemChanged sampleState
        { dataNull := false, row := -1, column := 0, text := "nw" }).2.refreshCount = 1 :=
  ⟨(edit_refresh_policy sampleState
      { dataNull := false, row := 0, column := 0, text := "renamed" } rfl rfl).1
      ⟨0, rfl⟩,
   (edit_refresh_policy sampleState
      { dataNull := false, row := -1, column := 0, text := "nw" } rfl rfl).2.1 rfl
      (by decide)⟩

/-- C6: an edit of an existing entry's Label cell deletes exactly that entry
when the new text is empty — the entries before it and after it survive in
order with their content — and renames just that entry otherwise, keeping its
address and every other entry; in both cases no memory write is issued and no
error dialog is shown. -/
theorem name_edit_contract (s : PanelState) (e : EditEvent) (r : Nat)
    (h0 : s.updating = false) (h1 : e.dataNull = false)
    (h2 : e.row = Int.ofNat r) (h3 : r < s.watches.length)
    (hc : e.column = 0) :
    (e.text = "" →
      (onItemChanged s e).1.watches =
        s.watches.take r ++ s.watches.drop (r + 1)) ∧
    (e.text ≠ "" →
      (onItemChanged s e).1.watches =
        s.watches.set r { name := e.text
                          address := (s.watches.get ⟨r, h3⟩).address }) ∧
    (onItemChanged s e).2.memWrites = [] ∧
    (onItemChanged s e).2.errorShown = false := by
  have hrow : (e.row == -1) = false := by
    rw [h2]; exact ofNat_beq_neg_one r
  refine ⟨fun ht => ?_, fun ht => ?_, ?_, ?_⟩
  · have hemp : e.text.isEmpty = true := isEmpty_true_of_eq e.text ht
    simp [onItemChanged, h0, h1, hrow, hc, h2, hemp, Update, removeWatch,
      List.eraseIdx_eq_take_drop_succ]
  · have hemp : e.text.isEmpty = false := isEmpty_false_of_ne e.text ht
    have hget : s.watches[r]? = some s.watches[r] :=
      List.getElem?_eq_getElem h3
    simp [onItemChanged, h0, h1, hrow, hc, h2, hemp, Update, updateWatchName,
      hget]
  · by_cases ht : e.text.isEmpty <;>
      simp [onItemChanged, h0, h1, hrow, hc, ht, noEffects]
  · by_cases ht : e.text.isEmpty <;>
      simp [onItemChanged, h0, h1, hrow, hc, ht, noEffects]

/-- Witness for C6: clearing the sample entry's label deletes it, and writing
"w1" renames it in place with the address kept. -/
theorem name_edit_contract_witness :
    (onItemChanged sampleState
        { dataNull := false, row := 0, column := 0, text := "" }).1.watches = [] ∧
    (onItemChanged sampleState
        { dataNull := false, row := 0, column := 0, text := "w1" }).1.watches =
      [{ name := "w1", address := 16 }] :=
  ⟨(name_edit_contract sampleState
      { dataNull := false, row := 0, column := 0, text := "" } 0 rfl rfl rfl
      (by decide) rfl).1 rfl,
   ((name_edit_contract sampleState
      { dataNull := false, row := 0, column := 0, text := "w1" } 0 rfl rfl rfl
      (by decide) rfl).2.1 (by decide))⟩

/-- C7: a non-empty edit of the sentinel row's label appends a new watch with
that name at address 0 and triggers exactly one refresh, writing no memory and
showing no error; an empty edit of the sentinel row does nothing at all. -/
theorem sentinel_edit_contract (s : PanelState) (e : EditEvent)
    (h0 : s.updating = false) (h1 : e.dataNull = false) (h2 : e.row = -1) :
    (e.text ≠ "" →
      (onItemChanged s e).1.watches =
        s.watches ++ [{ name := e.text, address := 0 }] ∧
      (onItemChanged s e).2 = { noEffects with refreshCount := 1 }) ∧
    (e.text = "" → onItemChanged s e = (s, noEffects)) := by
  constructor
  · intro ht
    have hemp : e.text.isEmpty = false := isEmpty_false_of_ne e.text ht
    constructor <;>
      simp [onItemChanged, h0, h1, h2, hemp, setWatch, Update]
  · intro ht
    have hemp : e.text.isEmpty = true := isEmpty_true_of_eq e.text ht
    simp [onItemChanged, h0, h1, h2, hemp]

/-- Witness for C7: a concrete sentinel edit with text "nw" appends the watch
("nw", 0), and an empty sentinel edit is a strict no-op. -/
theorem sentinel_edit_contract_witness :
    (onItemChanged sampleState
        { dataNull := false, row := -1, column := 0, text := "nw" }).1.watches =
      sampleState.watches ++ [{ name := "nw", address := 0 }] ∧
    onItemChanged sampleState
        { dataNull := false, row := -1, column := 0, text := "" } =
      (sampleState, noEffects) :=
  ⟨((sentinel_edit_contract sampleState
      { dataNull := false, row := -1, column := 0, text := "nw" } rfl rfl rfl).1
      (by decide)).1,
   (sentinel_edit_contract sampleState
      { dataNull := false, row := -1, column := 0, text := "" } rfl rfl rfl).2 rfl⟩

end WatchWidget
